import Mathlib

/-!
Verification development for the pm-endgame-sweep repository.

The Rust sources are shallowly embedded: IEEE-754 doubles are modelled as
exact rationals, u64/i64 integers as Nat/Int (with explicit mod 2^64 where
overflow matters), UTC timestamps as whole seconds since the epoch
(plus a nanosecond field where sub-second components matter), and fallible
functions return Except/Option. Opaque audit fields (the score_breakdown
JSON echo and the formatted notes string) are not modelled; no claim
mentions them.
-/

namespace PmEndgame

/-! ## Domain value types (crates/domain) -/

/-- Market, restricted to the fields the scoring engine reads
(crates/domain/src/market.rs). close_time is seconds since epoch. -/
structure Market where
  market_id : String
  close_time : Option Int
deriving DecidableEq, Repr

/-- Top-of-book quote snapshot (crates/domain/src/quote.rs). -/
structure Quote where
  market_id : String
  as_of : Int
  yes_bid : Option ℚ
  yes_ask : Option ℚ
  no_bid : Option ℚ
  no_ask : Option ℚ
  spread_yes : Option ℚ
  spread_no : Option ℚ
  mid_yes : Option ℚ
  mid_no : Option ℚ
  quote_source : String
deriving DecidableEq, Repr

/-- Risk flag (crates/domain/src/risk.rs). -/
structure RiskFlag where
  code : String
  severity : String
  evidence_spans : List (Nat × Nat)
deriving DecidableEq, Repr

/-- Rule snapshot (crates/domain/src/risk.rs). -/
structure RuleSnapshot where
  market_id : String
  as_of : Int
  rule_text : String
  rule_hash : String
  settlement_source : Option String
  settlement_window : Option String
  definition_risk_score : ℚ
  risk_flags : List RiskFlag
deriving DecidableEq, Repr

/-- Computed score (crates/domain/src/score.rs); the opaque
score_breakdown JSON echo is not modelled. -/
structure Score where
  market_id : String
  as_of : Int
  t_remaining_sec : Int
  gross_yield : ℚ
  fee_bps : ℚ
  net_yield : ℚ
  yield_velocity : ℚ
  liquidity_score : ℚ
  staleness_sec : Int
  staleness_penalty : ℚ
  definition_risk_score : ℚ
  overall_score : ℚ
deriving DecidableEq, Repr

/-- Recommendation (crates/domain/src/score.rs); the formatted notes
string is not modelled. -/
structure Recommendation where
  market_id : String
  as_of : Int
  recommended_side : String
  entry_price : ℚ
  expected_payout : ℚ
  max_position_pct : ℚ
  risk_score : ℚ
  risk_flags : List RiskFlag
deriving DecidableEq, Repr

/-! ## Scoring configuration (crates/scoring/src/config.rs) -/

/-- Weights for overall score computation. -/
structure ScoringWeights where
  w1 : ℚ
  w2 : ℚ
  w3 : ℚ
  w4 : ℚ
  w5 : ℚ
deriving DecidableEq, Repr

/-- Bounds for eligibility filtering. -/
structure ScoringBounds where
  min_t_remaining_sec : Int
  max_t_remaining_sec : Int
  quote_stale_max_sec : Int
  min_t_days : ℚ
  spread_target : ℚ
deriving DecidableEq, Repr

/-- Position sizing configuration. -/
structure SizingConfig where
  base_position_pct : ℚ
deriving DecidableEq, Repr

/-- Scoring-engine configuration (cadence_sec is irrelevant to the engine). -/
structure ScoringConfig where
  weights : ScoringWeights
  bounds : ScoringBounds
  fee_bps : ℚ
  sizing : SizingConfig
deriving DecidableEq, Repr

/-- Default scoring weights (impl Default for ScoringWeights). -/
def ScoringWeights.default : ScoringWeights :=
  { w1 := 0.45, w2 := 0.25, w3 := 0.15, w4 := 0.10, w5 := 0.05 }

/-- Default scoring bounds (impl Default for ScoringBounds). -/
def ScoringBounds.default : ScoringBounds :=
  { min_t_remaining_sec := 3600
    max_t_remaining_sec := 1209600
    quote_stale_max_sec := 180
    min_t_days := 0.25
    spread_target := 0.02 }

/-- Default scoring configuration (impl Default for ScoringConfig). -/
def ScoringConfig.default : ScoringConfig :=
  { weights := ScoringWeights.default
    bounds := ScoringBounds.default
    fee_bps := 120.0
    sizing := { base_position_pct := 0.10 } }

/-! ## Scoring engine (crates/scoring/src/engine.rs) -/

/-- Error type for scoring operations (ScoringError). -/
inductive ScoringError where
  | MissingQuote (market_id : String)
  | MissingRule (market_id : String)
  | InvalidMarket (msg : String)
deriving DecidableEq, Repr

/-- Rust f64::clamp: clamps x into the closed interval lo..hi. -/
def fclamp (x lo hi : ℚ) : ℚ := max lo (min x hi)

/-- ScoringEngine::calculate_staleness_penalty. -/
def calculate_staleness_penalty (cfg : ScoringConfig) (staleness_sec : Int) : ℚ :=
  fclamp ((staleness_sec : ℚ) / (cfg.bounds.quote_stale_max_sec : ℚ)) 0 1

/-- ScoringEngine::calculate_liquidity_score. -/
def calculate_liquidity_score (cfg : ScoringConfig)
    (no_bid no_ask staleness_penalty : ℚ) : ℚ :=
  let spread_no := no_ask - no_bid
  let raw_score := fclamp (1 - spread_no / cfg.bounds.spread_target) 0 1
  raw_score * (1 - staleness_penalty)

/-- ScoringEngine::calculate_overall_score. -/
def calculate_overall_score (cfg : ScoringConfig)
    (yield_velocity net_yield liquidity_score definition_risk_score
      staleness_penalty : ℚ) : ℚ :=
  let w := cfg.weights
  let norm_velocity := fclamp (yield_velocity / 1.0) 0 1
  let norm_net_yield := fclamp (net_yield / 0.5) 0 1
  let score := w.w1 * norm_velocity + w.w2 * norm_net_yield
    + w.w3 * liquidity_score - w.w4 * definition_risk_score
    - w.w5 * staleness_penalty
  fclamp score 0 1

/-- ScoringEngine::calculate_position_size. -/
def calculate_position_size (cfg : ScoringConfig) (score : Score) : ℚ :=
  let base := cfg.sizing.base_position_pct
  let risk_haircut := 1 - score.definition_risk_score
  let liq_haircut := 0.5 + 0.5 * score.liquidity_score
  let position_pct := base * risk_haircut * liq_haircut
  fclamp position_pct 0.01 0.10

/-- ScoringEngine::compute_score. Timestamps are whole seconds, so the
num_seconds truncation of chrono durations is exact subtraction here. -/
def compute_score (cfg : ScoringConfig) (market : Market) (quote : Quote)
    (rule : Option RuleSnapshot) (now : Int) : Except ScoringError Score :=
  match market.close_time with
  | none => .error (.InvalidMarket market.market_id)
  | some close_time =>
    let t_remaining_sec := close_time - now
    if t_remaining_sec < cfg.bounds.min_t_remaining_sec
        ∨ t_remaining_sec > cfg.bounds.max_t_remaining_sec then
      .error (.InvalidMarket
        ("Time remaining " ++ toString t_remaining_sec ++ " outside bounds"))
    else
      let staleness_sec := now - quote.as_of
      let staleness_penalty := calculate_staleness_penalty cfg staleness_sec
      match quote.no_bid with
      | none => .error (.MissingQuote market.market_id)
      | some no_bid =>
        match quote.no_ask with
        | none => .error (.MissingQuote market.market_id)
        | some no_ask =>
          let entry_price := no_bid
          let gross_yield := entry_price
          let fee_rate := cfg.fee_bps / 10000
          let net_yield := gross_yield * (1 - fee_rate)
          let t_days := (t_remaining_sec : ℚ) / 86400
          let t_days_clamped := max t_days cfg.bounds.min_t_days
          let yield_velocity := net_yield / t_days_clamped
          let liquidity_score :=
            calculate_liquidity_score cfg no_bid no_ask staleness_penalty
          let definition_risk_score :=
            (rule.map (fun r => r.definition_risk_score)).getD 0
          .ok
            { market_id := market.market_id
              as_of := now
              t_remaining_sec := t_remaining_sec
              gross_yield := gross_yield
              fee_bps := cfg.fee_bps
              net_yield := net_yield
              yield_velocity := yield_velocity
              liquidity_score := liquidity_score
              staleness_sec := staleness_sec
              staleness_penalty := staleness_penalty
              definition_risk_score := definition_risk_score
              overall_score := calculate_overall_score cfg yield_velocity
                net_yield liquidity_score definition_risk_score
                staleness_penalty }

/-- ScoringEngine::generate_recommendation (notes not modelled). -/
def generate_recommendation (cfg : ScoringConfig) (market : Market)
    (score : Score) (quote : Quote) (rule : Option RuleSnapshot) :
    Recommendation :=
  { market_id := market.market_id
    as_of := score.as_of
    recommended_side := "NO"
    entry_price := quote.no_bid.getD 0.0
    expected_payout := 1.0
    max_position_pct := calculate_position_size cfg score
    risk_score := score.definition_risk_score + score.staleness_penalty
    risk_flags := (rule.map (fun r => r.risk_flags)).getD [] }

/-! ## Venue client (crates/ingest/src/client.rs) -/

/-- Error type for venue client operations (ClientError). -/
inductive ClientError where
  | Http
  | Json
  | MarketNotFound (id : String)
  | InvalidResponse (msg : String)
deriving DecidableEq, Repr

/-- Substring containment on character lists: pat occurs somewhere in hay. -/
def list_contains_sub (pat : List Char) : List Char → Bool
  | [] => pat.isEmpty
  | c :: rest => pat.isPrefixOf (c :: rest) || list_contains_sub pat rest

/-- Rust str::contains as substring containment. -/
def str_contains (hay pat : String) : Bool := list_contains_sub pat.data hay.data

/-- Rust str::to_lowercase; Unicode lowercasing is modelled with the ASCII
Char.toLower, which agrees with it on the ASCII lexicon tokens. -/
def str_to_lower (s : String) : String := String.mk (s.data.map Char.toLower)

/-- PolymarketClient::extract_risk_flags. -/
def extract_risk_flags (rule_text : String) : List RiskFlag :=
  let lower := str_to_lower rule_text
  (if str_contains lower "subjective" || str_contains lower "discretion" then
    [{ code := "SUBJECTIVE_RESOLUTION", severity := "high", evidence_spans := [] }]
  else []) ++
  (if str_contains lower "unnamed" || str_contains lower "anonymous" then
    [{ code := "UNNAMED_SOURCE", severity := "high", evidence_spans := [] }]
  else []) ++
  (if str_contains lower "may" || str_contains lower "might"
      || str_contains lower "could" then
    [{ code := "AMBIGUOUS_LANGUAGE", severity := "medium", evidence_spans := [] }]
  else [])

/-- Severity weight used in PolymarketClient::calculate_risk_score. -/
def severity_weight (severity : String) : ℚ :=
  if severity = "high" then 0.3
  else if severity = "medium" then 0.15
  else if severity = "low" then 0.05
  else 0

/-- PolymarketClient::calculate_risk_score. -/
def calculate_risk_score (flags : List RiskFlag) : ℚ :=
  min ((flags.map (fun f => severity_weight f.severity)).sum) 1.0

/-- One level of the Polymarket order book (PolymarketOrderLevel). -/
structure OrderLevel where
  price : ℚ
  size : ℚ
deriving DecidableEq, Repr

/-- Decoded Polymarket book response (PolymarketBookResponse). -/
structure Book where
  bids : List OrderLevel
  asks : List OrderLevel
deriving DecidableEq, Repr

/-- Outcome of one market's book request inside get_quotes: the retried
HTTP request may fail (logged and skipped), the response body may fail to
decode (error propagates), or a book is decoded. -/
inductive BookFetch where
  | fetchFail
  | decodeFail
  | book (b : Book)
deriving DecidableEq, Repr

/-- Quote construction from a decoded order book, as in the body of the
Ok arm of PolymarketClient::get_quotes. -/
def quote_from_book (market_id : String) (now : Int) (book : Book) : Quote :=
  let yes_bid := book.bids.head?.map (fun b => b.price)
  let yes_ask := book.asks.head?.map (fun a => a.price)
  let no_bid := yes_ask.map (fun p => 1.0 - p)
  let no_ask := yes_bid.map (fun p => 1.0 - p)
  let spread_yes := match yes_bid, yes_ask with
    | some bid, some ask => some (ask - bid)
    | _, _ => none
  let spread_no := match no_bid, no_ask with
    | some bid, some ask => some (ask - bid)
    | _, _ => none
  let mid_yes := match yes_bid, yes_ask with
    | some bid, some ask => some ((bid + ask) / 2.0)
    | _, _ => none
  let mid_no := match no_bid, no_ask with
    | some bid, some ask => some ((bid + ask) / 2.0)
    | _, _ => none
  { market_id := market_id
    as_of := now
    yes_bid := yes_bid
    yes_ask := yes_ask
    no_bid := no_bid
    no_ask := no_ask
    spread_yes := spread_yes
    spread_no := spread_no
    mid_yes := mid_yes
    mid_no := mid_no
    quote_source := "polymarket" }

/-- PolymarketClient::get_quotes over the per-market fetch outcomes: a
failed fetch is skipped, a decode failure aborts the whole call with the
Http variant (the reqwest error of resp.json() is converted by the from
impl, so ClientError::Json is never produced here), and each decoded book
yields one quote, in input order. -/
def get_quotes (now : Int) :
    List (String × BookFetch) → Except ClientError (List Quote)
  | [] => .ok []
  | (_, .fetchFail) :: rest => get_quotes now rest
  | (_, .decodeFail) :: _ => .error .Http
  | (market_id, .book b) :: rest =>
    match get_quotes now rest with
    | .error e => .error e
    | .ok qs => .ok (quote_from_book market_id now b :: qs)

/-- Decoded market-detail document (PolymarketMarketDetailResponse). -/
structure MarketDetail where
  description : Option String
  resolution_source : Option String
deriving DecidableEq, Repr

/-! ## SHA-256 (Modelled from the spec)

Modelled from the spec: compute_rule_hash delegates to the external sha2
crate, which is not part of this repository; the spec fixes its meaning as
"SHA-256 hex of the UTF-8 bytes of rule_text", so the FIPS 180-4 SHA-256
function is implemented here over byte lists. -/

/-- Reduction modulo 2^32, the word size of SHA-256. -/
def m32 (x : Nat) : Nat := x % 4294967296

/-- Right rotation of a 32-bit word. -/
def rotr32 (n x : Nat) : Nat := m32 (x / 2 ^ n + x % 2 ^ n * 2 ^ (32 - n))

/-- SHA-256 big sigma 0. -/
def bSig0 (x : Nat) : Nat := rotr32 2 x ^^^ rotr32 13 x ^^^ rotr32 22 x

/-- SHA-256 big sigma 1. -/
def bSig1 (x : Nat) : Nat := rotr32 6 x ^^^ rotr32 11 x ^^^ rotr32 25 x

/-- SHA-256 small sigma 0. -/
def sSig0 (x : Nat) : Nat := rotr32 7 x ^^^ rotr32 18 x ^^^ x / 2 ^ 3

/-- SHA-256 small sigma 1. -/
def sSig1 (x : Nat) : Nat := rotr32 17 x ^^^ rotr32 19 x ^^^ x / 2 ^ 10

/-- SHA-256 choice function. -/
def shaCh (x y z : Nat) : Nat := x &&& y ^^^ (x ^^^ 4294967295) &&& z

/-- SHA-256 majority function. -/
def shaMaj (x y z : Nat) : Nat := x &&& y ^^^ x &&& z ^^^ y &&& z

/-- SHA-256 round constants. -/
def shaK : List Nat :=
  [1116352408, 1899447441, 3049323471, 3921009573,
   961987163, 1508970993, 2453635748, 2870763221,
   3624381080, 310598401, 607225278, 1426881987,
   1925078388, 2162078206, 2614888103, 3248222580,
   3835390401, 4022224774, 264347078, 604807628,
   770255983, 1249150122, 1555081692, 1996064986,
   2554220882, 2821834349, 2952996808, 3210313671,
   3336571891, 3584528711, 113926993, 338241895,
   666307205, 773529912, 1294757372, 1396182291,
   1695183700, 1986661051, 2177026350, 2456956037,
   2730485921, 2820302411, 3259730800, 3345764771,
   3516065817, 3600352804, 4094571909, 275423344,
   430227734, 506948616, 659060556, 883997877,
   958139571, 1322822218, 1537002063, 1747873779,
   1955562222, 2024104815, 2227730452, 2361852424,
   2428436474, 2756734187, 3204031479, 3329325298]

/-- SHA-256 working state: eight 32-bit words. -/
structure Hash8 where
  a : Nat
  b : Nat
  c : Nat
  d : Nat
  e : Nat
  f : Nat
  g : Nat
  h : Nat
deriving DecidableEq, Repr

/-- SHA-256 initial hash value. -/
def shaH0 : Hash8 :=
  ⟨1779033703, 3144134277, 1013904242, 2773480762,
   1359893119, 2600822924, 528734635, 1541459225⟩

/-- One SHA-256 round; kw is the round constant plus the schedule word. -/
def shaRound (s : Hash8) (kw : Nat) : Hash8 :=
  let t1 := m32 (s.h + bSig1 s.e + shaCh s.e s.f s.g + kw)
  let t2 := m32 (bSig0 s.a + shaMaj s.a s.b s.c)
  ⟨m32 (t1 + t2), s.a, s.b, s.c, m32 (s.d + t1), s.e, s.f, s.g⟩

/-- Message-schedule extension of one 16-word block to 64 words. -/
def shaSchedule (block : List Nat) : Array Nat :=
  (List.range 48).foldl
    (fun w i =>
      w.push (m32 (sSig1 w[i + 14]! + w[i + 9]! + sSig0 w[i + 1]! + w[i]!)))
    block.toArray

/-- Compression of one 64-byte block into the running hash. -/
def shaCompress (hs : Hash8) (block : List Nat) : Hash8 :=
  let kw := List.zipWith (fun k w => m32 (k + w)) shaK (shaSchedule block).toList
  let s := kw.foldl shaRound hs
  ⟨m32 (hs.a + s.a), m32 (hs.b + s.b), m32 (hs.c + s.c), m32 (hs.d + s.d),
   m32 (hs.e + s.e), m32 (hs.f + s.f), m32 (hs.g + s.g), m32 (hs.h + s.h)⟩

/-- SHA-256 padding: append 0x80, zeros to 56 mod 64, then the bit length
as eight big-endian bytes. -/
def shaPad (msg : List Nat) : List Nat :=
  let L := msg.length * 8
  let zeros := (119 - msg.length % 64) % 64
  msg ++ [0x80] ++ List.replicate zeros 0
    ++ (List.range 8).map (fun i => L / 2 ^ (8 * (7 - i)) % 256)

/-- Big-endian grouping of bytes into 32-bit words. -/
def bytesToWords : List Nat → List Nat
  | b0 :: b1 :: b2 :: b3 :: rest =>
    (((b0 * 256 + b1) * 256 + b2) * 256 + b3) :: bytesToWords rest
  | _ => []

/-- Grouping of a word list into 16-word blocks; padding guarantees the
length is a multiple of 16, so the last arm is never reached. -/
def wordsToBlocks : List Nat → List (List Nat)
  | w0 :: w1 :: w2 :: w3 :: w4 :: w5 :: w6 :: w7 ::
      w8 :: w9 :: w10 :: w11 :: w12 :: w13 :: w14 :: w15 :: rest =>
    [w0, w1, w2, w3, w4, w5, w6, w7, w8, w9, w10, w11, w12, w13, w14, w15]
      :: wordsToBlocks rest
  | _ => []

/-- SHA-256 digest of a byte list, as eight 32-bit words. -/
def sha256 (msg : List Nat) : Hash8 :=
  (wordsToBlocks (bytesToWords (shaPad msg))).foldl shaCompress shaH0

/-- Lowercase hex digit for a value below 16. -/
def hexDigit (n : Nat) : Char :=
  if n < 10 then Char.ofNat (48 + n) else Char.ofNat (87 + n)

/-- Eight lowercase hex digits of a 32-bit word, most significant first. -/
def wordHex (w : Nat) : List Char :=
  (List.range 8).map (fun i => hexDigit (w / 16 ^ (7 - i) % 16))

/-- UTF-8 encoding of one scalar value. -/
def utf8EncodeChar (c : Char) : List Nat :=
  let n := c.toNat
  if n < 128 then [n]
  else if n < 2048 then [192 + n / 64, 128 + n % 64]
  else if n < 65536 then [224 + n / 4096, 128 + n / 64 % 64, 128 + n % 64]
  else [240 + n / 262144, 128 + n / 4096 % 64, 128 + n / 64 % 64, 128 + n % 64]

/-- UTF-8 bytes of a string. -/
def utf8Bytes (s : String) : List Nat :=
  (s.data.map utf8EncodeChar).flatten

/-- PolymarketClient::compute_rule_hash: SHA-256 hex of the UTF-8 bytes of
the rule text. -/
def compute_rule_hash (text : String) : String :=
  let d := sha256 (utf8Bytes text)
  String.mk (([d.a, d.b, d.c, d.d, d.e, d.f, d.g, d.h].map wordHex).flatten)

/-- PolymarketClient::get_rules after a successful fetch and decode of the
market-detail document. -/
def get_rules (market_id : String) (now : Int) (detail : MarketDetail) :
    RuleSnapshot :=
  let rule_text := detail.description.getD "No rules provided"
  let rule_hash := compute_rule_hash rule_text
  let risk_flags := extract_risk_flags rule_text
  let definition_risk_score := calculate_risk_score risk_flags
  { market_id := market_id
    as_of := now
    rule_text := rule_text
    rule_hash := rule_hash
    settlement_source := detail.resolution_source
    settlement_window := none
    definition_risk_score := definition_risk_score
    risk_flags := risk_flags }

/-! ## Retry with backoff (crates/ingest/src/retry.rs) -/

/-- Truncation of a nonnegative rational toward zero, the behavior of the
Rust f64-to-u64 cast on the jittered delay; for nonnegative q this is the
floor. -/
def rat_trunc (q : ℚ) : Int := q.num / (q.den : Int)

/-- Retry configuration (crates/ingest/src/config.rs); u64 fields are
naturals below 2^64. -/
structure RetryConfig where
  max_attempts : Nat
  initial_delay_ms : Nat
  max_delay_ms : Nat
  jitter : Bool
deriving DecidableEq, Repr

/-- Default retry configuration (impl Default for RetryConfig). -/
def RetryConfig.default : RetryConfig :=
  { max_attempts := 3, initial_delay_ms := 100, max_delay_ms := 5000
    jitter := true }

/-- Sleep durations (in ms) performed by the loop of retry_with_backoff.
succeeds i tells whether the i-th call of the operation succeeds, js i is
the random jitter factor drawn before the i-th sleep (rand in 0..1 gives
js i = rand * 0.3 + 0.85); the f64-to-u64 cast truncates, hence the floor.
Doubling is u64 arithmetic, hence the mod 2^64. The fuel argument bounds
the loop, which runs at most max_attempts iterations. -/
def retryLoop (cfg : RetryConfig) (succeeds : Nat → Bool) (js : Nat → ℚ) :
    Nat → Nat → Nat → List ℚ
  | 0, _, _ => []
  | fuel + 1, attempt, delay_ms =>
    let att := attempt + 1
    if succeeds att then []
    else if cfg.max_attempts ≤ att then []
    else
      (if cfg.jitter then ((rat_trunc ((delay_ms : ℚ) * js att)) : ℚ)
       else (delay_ms : ℚ)) ::
        retryLoop cfg succeeds js fuel att
          (min (delay_ms * 2 % 18446744073709551616) cfg.max_delay_ms)

/-- All sleeps performed by one call of retry_with_backoff. -/
def retrySleeps (cfg : RetryConfig) (succeeds : Nat → Bool) (js : Nat → ℚ) :
    List ℚ :=
  retryLoop cfg succeeds js cfg.max_attempts 0 cfg.initial_delay_ms

/-! ## Opportunities pagination (crates/api/src/handlers/opportunities.rs) -/

/-- API configuration fields the handler reads (crates/api/src/config.rs). -/
structure ApiConfig where
  max_page_size : Nat
  default_page_size : Nat
deriving DecidableEq, Repr

/-- Default API configuration (impl Default for ApiConfig). -/
def ApiConfig.default : ApiConfig := { max_page_size := 100, default_page_size := 20 }

/-- Effective page size in opportunities_handler:
params.limit.unwrap_or(default_page_size).min(max_page_size). -/
def effective_limit (cfg : ApiConfig) (limit : Option Nat) : Nat :=
  min (limit.getD cfg.default_page_size) cfg.max_page_size

/-- Effective offset in opportunities_handler: params.offset.unwrap_or(0). -/
def effective_offset (offset : Option Nat) : Nat := offset.getD 0

/-! ## Quote history bucketing (crates/storage/src/quotes.rs) -/

/-- UTC instant: whole seconds since the epoch plus nanoseconds. -/
structure Timestamp where
  sec : Int
  nsec : Nat
deriving DecidableEq, Repr

/-- bucket_to_5m: chrono minute() is Euclidean minute-of-hour, with_minute
keeps the second-of-minute and shifts whole minutes, with_second(0) zeroes
the second-of-minute, with_nanosecond(0) zeroes nsec. All field values set
are valid, so the unwrap_or fallback is never taken. -/
def bucket_to_5m (dt : Timestamp) : Timestamp :=
  let minutes := dt.sec / 60 % 60
  let bucket_minutes := minutes / 5 * 5
  let with_min := dt.sec + 60 * (bucket_minutes - minutes)
  { sec := with_min - with_min % 60, nsec := 0 }

/-! ## Concrete fixtures used by scenario theorems and witnesses -/

/-- S1 market fixture: close_time is 86400 s after now. -/
def s1_market (now : Int) : Market :=
  { market_id := "m1", close_time := some (now + 86400) }

/-- S1 quote fixture: fresh NO-side quote 0.92 / 0.94. -/
def s1_quote (now : Int) : Quote :=
  { market_id := "m1", as_of := now, yes_bid := none, yes_ask := none
    no_bid := some 0.92, no_ask := some 0.94, spread_yes := none
    spread_no := none, mid_yes := none, mid_no := none
    quote_source := "polymarket" }

/-- Order-book fixture with one level on each side. -/
def bookEx : Book :=
  { bids := [{ price := 0.55, size := 1 }], asks := [{ price := 0.6, size := 1 }] }

/-- Fetch-outcome fixture: one failed fetch followed by one decoded book. -/
def fetchesEx : List (String × BookFetch) :=
  [("a", BookFetch.fetchFail), ("b", BookFetch.book bookEx)]

/-- The quote an entry of get_quotes contributes: one quote per decoded
book, nothing for a skipped or failed entry. -/
def quote_of_fetch (now : Int) (e : String × BookFetch) : Option Quote :=
  match e.2 with
  | .book b => some (quote_from_book e.1 now b)
  | _ => none

/-- Retry configuration whose initial delay exceeds the cap. -/
def cexRetryConfig : RetryConfig :=
  { max_attempts := 2
    initial_delay_ms := 10000
    max_delay_ms := 5000
    jitter := false }

/-- Retry configuration with a small initial delay and no jitter. -/
def smallRetryConfig : RetryConfig :=
  { max_attempts := 3
    initial_delay_ms := 100
    max_delay_ms := 5000
    jitter := false }

/-- Score the default engine computes at the S1 inputs. -/
def s1_expected_score (now : Int) : Score :=
  { market_id := "m1", as_of := now, t_remaining_sec := 86400
    gross_yield := 0.92, fee_bps := 120, net_yield := 0.90896
    yield_velocity := 0.90896, liquidity_score := 0
    staleness_sec := 0, staleness_penalty := 0
    definition_risk_score := 0, overall_score := 0.659032 }

/-- Recommendation the default engine generates at the S1 inputs. -/
def s1_expected_rec (now : Int) : Recommendation :=
  { market_id := "m1", as_of := now, recommended_side := "NO"
    entry_price := 0.92, expected_payout := 1, max_position_pct := 0.05
    risk_score := 0, risk_flags := [] }

end PmEndgame

namespace PmEndgame

/-! ## Theorems settling the claims -/

/-- C7: bucket_to_5m t is the greatest 5-minute-aligned timestamp not
exceeding t — its seconds are the greatest multiple of 300 at most the
input seconds, with seconds-of-minute and sub-second components zeroed —
and bucket_to_5m is idempotent. -/
theorem C7_bucket_to_5m_floor_idempotent (t : Timestamp) :
    (bucket_to_5m t).sec = 300 * (t.sec / 300) ∧
    (bucket_to_5m t).nsec = 0 ∧
    (bucket_to_5m t).sec ≤ t.sec ∧
    (300 : Int) ∣ (bucket_to_5m t).sec ∧
    (∀ b : Int, (300 : Int) ∣ b → b ≤ t.sec → b ≤ (bucket_to_5m t).sec) ∧
    bucket_to_5m (bucket_to_5m t) = bucket_to_5m t := by
  obtain ⟨s, n⟩ := t
  dsimp only [bucket_to_5m]
  refine ⟨by omega, rfl, by omega, by omega, ?_, ?_⟩
  · intro b hb hle
    omega
  · simp only [Timestamp.mk.injEq]
    refine ⟨by omega, trivial⟩

/-- Witness for C7 at a concrete timestamp and candidate multiple. -/
theorem C7_witness : (600 : Int) ≤ (bucket_to_5m ⟨1062, 123⟩).sec :=
  (C7_bucket_to_5m_floor_idempotent ⟨1062, 123⟩).2.2.2.2.1 600
    (by norm_num) (by norm_num)

/-- C4 as stated is false: a supplied limit of 0 is not raised to 1 — the
handler computes limit.unwrap_or(default).min(max_page_size), which has no
lower clamp, so the effective page size is 0. -/
theorem C4_counterexample :
    effective_limit ApiConfig.default (some 0) = 0 ∧
    effective_limit ApiConfig.default (some 0) ≠ 1 := by
  constructor <;> decide

/-- C4 amended: the effective page size is the supplied limit capped above
by max_page_size (no lower clamp, so a supplied limit of 0 stays 0),
defaulting to default_page_size capped by max_page_size when no limit is
supplied; the effective offset defaults to 0 and is otherwise passed
through unchanged. -/
theorem C4_pagination (cfg : ApiConfig) (l o : Nat) :
    effective_limit cfg none = min cfg.default_page_size cfg.max_page_size ∧
    effective_limit cfg (some l) = min l cfg.max_page_size ∧
    effective_limit cfg (some 0) = 0 ∧
    effective_offset none = 0 ∧
    effective_offset (some o) = o := by
  refine ⟨rfl, rfl, ?_, rfl, rfl⟩
  simp [effective_limit]

/-- C10: when the market-detail document carries no description, get_rules
does not fail — it substitutes the fixed text "No rules provided", whose
lexicon scan yields no risk flags and risk score 0, and it hashes the
substitute text (shown equal to the SHA-256 hex digest of those bytes). -/
theorem C10_missing_description (market_id : String) (now : Int)
    (rsrc : Option String) :
    get_rules market_id now { description := none, resolution_source := rsrc } =
      { market_id := market_id
        as_of := now
        rule_text := "No rules provided"
        rule_hash := compute_rule_hash "No rules provided"
        settlement_source := rsrc
        settlement_window := none
        definition_risk_score := 0
        risk_flags := [] } ∧
    extract_risk_flags "No rules provided" = [] ∧
    compute_rule_hash "No rules provided" =
      "e00ad11279e9bf34560453d049e90b9a485b78b73e911e46acee4a4b6ab45ade" := by
  have hflags : extract_risk_flags "No rules provided" = [] := by decide
  refine ⟨?_, hflags, by decide⟩
  simp [get_rules, hflags, calculate_risk_score]
  norm_num


/-! ### Supporting lemmas -/

/-- Truncation toward zero agrees with the floor on rationals (used for
nonnegative jittered delays). -/
theorem rat_trunc_eq_floor (q : ℚ) : rat_trunc q = ⌊q⌋ := by
  rw [Rat.floor_def]; rfl

/-- Every sleep of the retry loop is bounded by max_delay_ms times 1.15,
provided the running delay starts at most max_delay_ms and every jitter
factor is at most 1.15. -/
theorem retryLoop_sleep_le (cfg : RetryConfig) (succeeds : Nat → Bool)
    (js : Nat → ℚ) (hjs : ∀ k, js k ≤ 1.15) :
    ∀ (fuel attempt delay_ms : Nat), delay_ms ≤ cfg.max_delay_ms →
      ∀ s ∈ retryLoop cfg succeeds js fuel attempt delay_ms,
        s ≤ (cfg.max_delay_ms : ℚ) * 1.15 := by
  intro fuel
  induction fuel with
  | zero => intro attempt delay hd s hs; simp [retryLoop] at hs
  | succ n ih =>
    intro attempt delay hd s hs
    simp only [retryLoop] at hs
    split at hs
    · simp at hs
    · split at hs
      · simp at hs
      · rw [List.mem_cons] at hs
        rcases hs with h | h
        · subst h
          split
          · calc ((rat_trunc ((delay : ℚ) * js (attempt + 1))) : ℚ)
                ≤ (delay : ℚ) * js (attempt + 1) := by
                  rw [rat_trunc_eq_floor]; exact Int.floor_le _
            _ ≤ (delay : ℚ) * 1.15 :=
                  mul_le_mul_of_nonneg_left (hjs _) (by positivity)
            _ ≤ (cfg.max_delay_ms : ℚ) * 1.15 := by
                  have hdq : (delay : ℚ) ≤ (cfg.max_delay_ms : ℚ) := by
                    exact_mod_cast hd
                  exact mul_le_mul_of_nonneg_right hdq (by norm_num)
          · calc ((delay : ℚ)) ≤ (cfg.max_delay_ms : ℚ) := by exact_mod_cast hd
            _ ≤ (cfg.max_delay_ms : ℚ) * 1.15 :=
                  le_mul_of_one_le_right (by positivity) (by norm_num)
        · exact ih _ _ (min_le_right _ _) s h

/-- When no entry fails to decode, get_quotes succeeds and returns exactly
the quotes of the decoded books, in input order. -/
theorem get_quotes_ok (now : Int) (fetches : List (String × BookFetch))
    (h : ∀ e ∈ fetches, e.2 ≠ .decodeFail) :
    get_quotes now fetches = .ok (fetches.filterMap (quote_of_fetch now)) := by
  induction fetches with
  | nil => simp [get_quotes]
  | cons e rest ih =>
    obtain ⟨id, f⟩ := e
    have hrest : ∀ x ∈ rest, x.2 ≠ BookFetch.decodeFail := by
      intro x hx; exact h x (List.mem_cons_of_mem _ hx)
    cases f with
    | fetchFail => simpa [get_quotes, quote_of_fetch] using ih hrest
    | decodeFail => exact absurd rfl (h (id, .decodeFail) (List.mem_cons_self _ _))
    | book b => simp [get_quotes, quote_of_fetch, ih hrest]

/-- When some entry fails to decode, get_quotes fails with the Http error
(the converted reqwest decode error). -/
theorem get_quotes_err (now : Int) (fetches : List (String × BookFetch))
    (h : ∃ e ∈ fetches, e.2 = .decodeFail) :
    get_quotes now fetches = .error .Http := by
  induction fetches with
  | nil => simp at h
  | cons e rest ih =>
    obtain ⟨id, f⟩ := e
    cases f with
    | decodeFail => simp [get_quotes]
    | fetchFail =>
      have hr : ∃ x ∈ rest, x.2 = BookFetch.decodeFail := by
        rcases h with ⟨x, hx, hdf⟩
        rcases List.mem_cons.mp hx with h1 | h1
        · subst h1; simp at hdf
        · exact ⟨x, h1, hdf⟩
      simpa [get_quotes] using ih hr
    | book b =>
      have hr : ∃ x ∈ rest, x.2 = BookFetch.decodeFail := by
        rcases h with ⟨x, hx, hdf⟩
        rcases List.mem_cons.mp hx with h1 | h1
        · subst h1; simp at hdf
        · exact ⟨x, h1, hdf⟩
      simp [get_quotes, ih hr]

/-- The returned quote ids form a sublist of the requested ids. -/
theorem map_filterMap_quotes_sublist (now : Int) :
    ∀ l : List (String × BookFetch),
      ((l.filterMap (quote_of_fetch now)).map (fun q => q.market_id)).Sublist
        (l.map (fun e => e.1)) := by
  intro l
  induction l with
  | nil => simp
  | cons e rest ih =>
    obtain ⟨id, f⟩ := e
    cases f with
    | fetchFail => simpa [quote_of_fetch] using ih.cons id
    | decodeFail => simpa [quote_of_fetch] using ih.cons id
    | book b => simpa [quote_of_fetch, quote_from_book] using ih.cons₂ id

/-! ### Remaining claim theorems -/

/-- C1 as stated is false: at the S1 inputs the default engine returns
overall_score 0.659032, not 0.70 — the velocity term of the weighted sum
is 0.45 times clamp(0.90896, 0, 1) = 0.45 times 0.90896, not 0.45 times 1. -/
theorem C1_counterexample :
    (compute_score ScoringConfig.default (s1_market 0) (s1_quote 0) none 0).map
        (fun s => s.overall_score) = .ok 0.659032 ∧
    (0.659032 : ℚ) ≠ 0.70 := by
  constructor
  · simp only [compute_score, s1_market, s1_quote, calculate_staleness_penalty,
      calculate_liquidity_score, calculate_overall_score, fclamp,
      ScoringConfig.default, ScoringBounds.default, ScoringWeights.default,
      Except.map]
    norm_num
  · norm_num

/-- C1 amended: for the S1 happy-path inputs (close_time = now + 86400 s,
no_bid 0.92, no_ask 0.94, as_of now, no rule, defaults), compute_score
returns t_remaining_sec 86400, staleness_penalty 0, gross_yield 0.92,
net_yield 0.90896, yield_velocity 0.90896, liquidity_score 0,
definition_risk_score 0 and overall_score 0.659032 (not 0.70), and the
recommendation has entry_price 0.92, max_position_pct 0.05 and
risk_score 0. -/
theorem C1_s1_happy_path (now : Int) :
    compute_score ScoringConfig.default (s1_market now) (s1_quote now) none now
      = .ok (s1_expected_score now) ∧
    generate_recommendation ScoringConfig.default (s1_market now)
      (s1_expected_score now) (s1_quote now) none = s1_expected_rec now := by
  constructor
  · simp only [compute_score, s1_market, s1_quote, calculate_staleness_penalty,
      calculate_liquidity_score, calculate_overall_score, fclamp,
      ScoringConfig.default, ScoringBounds.default, ScoringWeights.default,
      s1_expected_score]
    norm_num
  · simp only [generate_recommendation, s1_market, s1_quote, s1_expected_score,
      s1_expected_rec, calculate_position_size, fclamp, ScoringConfig.default]
    norm_num

/-- C2: compute_score returns InvalidMarket exactly when close_time is
absent or the remaining seconds fall outside the configured bounds; with
close_time present and in bounds, a missing no_bid or no_ask yields
MissingQuote; MissingRule is never returned. -/
theorem C2_eligibility_gate (cfg : ScoringConfig) (market : Market)
    (quote : Quote) (rule : Option RuleSnapshot) (now : Int) :
    ((∃ s, compute_score cfg market quote rule now = .error (.InvalidMarket s)) ↔
      market.close_time = none ∨
        ∃ c, market.close_time = some c ∧
          (c - now < cfg.bounds.min_t_remaining_sec ∨
            c - now > cfg.bounds.max_t_remaining_sec)) ∧
    (∀ c, market.close_time = some c →
      cfg.bounds.min_t_remaining_sec ≤ c - now →
      c - now ≤ cfg.bounds.max_t_remaining_sec →
      (quote.no_bid = none ∨ quote.no_ask = none) →
      ∃ s, compute_score cfg market quote rule now = .error (.MissingQuote s)) ∧
    (∀ s, compute_score cfg market quote rule now ≠ .error (.MissingRule s)) := by
  cases hct : market.close_time with
  | none => simp [compute_score, hct]
  | some c =>
    by_cases hb : c - now < cfg.bounds.min_t_remaining_sec ∨
        c - now > cfg.bounds.max_t_remaining_sec
    · simp [compute_score, hct, hb]
      intro h1 h2
      omega
    · cases hnb : quote.no_bid with
      | none => simp [compute_score, hct, hb, hnb]
      | some nb =>
        cases hna : quote.no_ask with
        | none => simp [compute_score, hct, hb, hna, hnb]
        | some na => simp [compute_score, hct, hb, hna, hnb]

/-- Witness for C2: a market without close_time is rejected as invalid. -/
theorem C2_witness :
    ∃ s, compute_score ScoringConfig.default
        { market_id := "m", close_time := none } (s1_quote 0) none 0
      = .error (.InvalidMarket s) :=
  (C2_eligibility_gate ScoringConfig.default
      { market_id := "m", close_time := none } (s1_quote 0) none 0).1.mpr
    (Or.inl rfl)



/-- C3 as stated is false: the cap is applied only after doubling, so a
configuration whose initial_delay_ms exceeds max_delay_ms sleeps longer
than max_delay_ms times 1.15 before its first retry. -/
theorem C3_counterexample :
    ∃ s ∈ retrySleeps cexRetryConfig (fun _ => false) (fun _ => 1),
      (5000 : ℚ) * 1.15 < s := by
  have e : retrySleeps cexRetryConfig (fun _ => false) (fun _ => 1)
      = [10000] := rfl
  refine ⟨10000, ?_, by norm_num⟩
  rw [e]
  simp

/-- C3 amended: provided initial_delay_ms ≤ max_delay_ms, every sleep
chosen by retry_with_backoff is at most max_delay_ms times 1.15 — the
delay starts at initial_delay_ms, doubles (u64 arithmetic) after each
failed attempt capping at max_delay_ms, and jitter multiplies the slept
value by a factor in the interval 0.85 to 1.15, truncated to whole
milliseconds; without the hypothesis the uncapped initial delay can
exceed the bound. -/
theorem C3_backoff_cap (cfg : RetryConfig) (succeeds : Nat → Bool)
    (js : Nat → ℚ) (hinit : cfg.initial_delay_ms ≤ cfg.max_delay_ms)
    (hjs : ∀ k, 0.85 ≤ js k ∧ js k ≤ 1.15) :
    ∀ s ∈ retrySleeps cfg succeeds js, s ≤ (cfg.max_delay_ms : ℚ) * 1.15 :=
  retryLoop_sleep_le cfg succeeds js (fun k => (hjs k).2) cfg.max_attempts 0
    cfg.initial_delay_ms hinit

/-- Witness for C3 at a concrete configuration whose first sleep is
100 ms. -/
theorem C3_witness : (100 : ℚ) ≤ (5000 : ℚ) * 1.15 := by
  have e : retrySleeps smallRetryConfig (fun _ => false) (fun _ => 1)
      = [100, 200] := rfl
  have h := C3_backoff_cap smallRetryConfig (fun _ => false) (fun _ => 1)
    (by norm_num [smallRetryConfig]) (fun k => ⟨by norm_num, by norm_num⟩)
    100 (by rw [e]; simp)
  simpa using h

/-- C5: flag extraction is case-insensitive substring matching against the
fixed lexicon (subjective/discretion give SUBJECTIVE_RESOLUTION high,
unnamed/anonymous give UNNAMED_SOURCE high, may/might/could give
AMBIGUOUS_LANGUAGE medium), each code is emitted at most once, and the
risk score equals min(1, sum of severity weights) and lies in the unit
interval. -/
theorem C5_flag_extraction (rule_text : String) :
    (((extract_risk_flags rule_text).map (fun f => f.code)).Nodup) ∧
    (∀ f ∈ extract_risk_flags rule_text,
      ((f.code = "SUBJECTIVE_RESOLUTION" ∧ f.severity = "high") ∨
       (f.code = "UNNAMED_SOURCE" ∧ f.severity = "high") ∨
       (f.code = "AMBIGUOUS_LANGUAGE" ∧ f.severity = "medium"))) ∧
    ((∃ f ∈ extract_risk_flags rule_text, f.code = "SUBJECTIVE_RESOLUTION") ↔
      (str_contains (str_to_lower rule_text) "subjective" = true ∨
       str_contains (str_to_lower rule_text) "discretion" = true)) ∧
    ((∃ f ∈ extract_risk_flags rule_text, f.code = "UNNAMED_SOURCE") ↔
      (str_contains (str_to_lower rule_text) "unnamed" = true ∨
       str_contains (str_to_lower rule_text) "anonymous" = true)) ∧
    ((∃ f ∈ extract_risk_flags rule_text, f.code = "AMBIGUOUS_LANGUAGE") ↔
      (str_contains (str_to_lower rule_text) "may" = true ∨
       str_contains (str_to_lower rule_text) "might" = true ∨
       str_contains (str_to_lower rule_text) "could" = true)) ∧
    calculate_risk_score (extract_risk_flags rule_text) =
      min (((extract_risk_flags rule_text).map
        (fun f => severity_weight f.severity)).sum) 1 ∧
    0 ≤ calculate_risk_score (extract_risk_flags rule_text) ∧
    calculate_risk_score (extract_risk_flags rule_text) ≤ 1 := by
  unfold extract_risk_flags calculate_risk_score
  cases h1 : (str_contains (str_to_lower rule_text) "subjective"
      || str_contains (str_to_lower rule_text) "discretion") <;>
    cases h2 : (str_contains (str_to_lower rule_text) "unnamed"
      || str_contains (str_to_lower rule_text) "anonymous") <;>
      cases h3 : (str_contains (str_to_lower rule_text) "may"
        || str_contains (str_to_lower rule_text) "might"
        || str_contains (str_to_lower rule_text) "could") <;>
    simp_all [severity_weight, or_assoc]
  all_goals norm_num

/-- Witness for C5: the flag extracted from a text containing "may" is one
of the three lexicon codes with its severity. -/
theorem C5_witness :
    ("AMBIGUOUS_LANGUAGE" = "SUBJECTIVE_RESOLUTION" ∧ "medium" = "high") ∨
    ("AMBIGUOUS_LANGUAGE" = "UNNAMED_SOURCE" ∧ "medium" = "high") ∨
    ("AMBIGUOUS_LANGUAGE" = "AMBIGUOUS_LANGUAGE" ∧ "medium" = "medium") :=
  (C5_flag_extraction "this may happen").2.1
    { code := "AMBIGUOUS_LANGUAGE", severity := "medium", evidence_spans := [] }
    (by decide)

/-- C6: the quote built from an order book takes yes_bid and yes_ask from
the top of each side (absent when that side is empty), derives
no_bid = 1 - yes_ask and no_ask = 1 - yes_bid (exactly, hence within
1e-12), and carries spreads and mids exactly when both endpoints of the
corresponding side are present, computed as ask - bid and (bid + ask)/2. -/
theorem C6_quote_derivation (market_id : String) (now : Int) (book : Book) :
    ∀ q, q = quote_from_book market_id now book →
      q.yes_bid = book.bids.head?.map (fun b => b.price) ∧
      q.yes_ask = book.asks.head?.map (fun a => a.price) ∧
      q.no_bid = q.yes_ask.map (fun p => 1 - p) ∧
      q.no_ask = q.yes_bid.map (fun p => 1 - p) ∧
      (∀ p nb, q.yes_ask = some p → q.no_bid = some nb →
        |nb - (1 - p)| ≤ 1 / 10 ^ 12) ∧
      (∀ p na, q.yes_bid = some p → q.no_ask = some na →
        |na - (1 - p)| ≤ 1 / 10 ^ 12) ∧
      (q.spread_yes.isSome ↔ q.yes_bid.isSome ∧ q.yes_ask.isSome) ∧
      (q.mid_yes.isSome ↔ q.yes_bid.isSome ∧ q.yes_ask.isSome) ∧
      (q.spread_no.isSome ↔ q.no_bid.isSome ∧ q.no_ask.isSome) ∧
      (q.mid_no.isSome ↔ q.no_bid.isSome ∧ q.no_ask.isSome) ∧
      (∀ bid ask, q.yes_bid = some bid → q.yes_ask = some ask →
        q.spread_yes = some (ask - bid) ∧ q.mid_yes = some ((bid + ask) / 2)) ∧
      (∀ bid ask, q.no_bid = some bid → q.no_ask = some ask →
        q.spread_no = some (ask - bid) ∧ q.mid_no = some ((bid + ask) / 2)) := by
  intro q hq
  subst hq
  obtain ⟨bids, asks⟩ := book
  cases bids <;> cases asks <;> simp [quote_from_book] <;> norm_num

/-- Witness for C6: on the fixture book the derived NO bid matches
1 - yes_ask within 1e-12. -/
theorem C6_witness : |(1 - (0.6 : ℚ)) - (1 - 0.6)| ≤ 1 / 10 ^ 12 :=
  ((C6_quote_derivation "m" 0 bookEx) (quote_from_book "m" 0 bookEx)
      rfl).2.2.2.2.1 0.6 (1 - 0.6)
    (by simp [quote_from_book, bookEx])
    (by simp [quote_from_book, bookEx]; norm_num)

/-- C8: get_quotes tolerates per-market fetch failures — it succeeds
exactly when no decoded response fails to decode, any error is the Http
variant (the reqwest error of the failed decode, converted by the from
impl), and on success it returns the quotes of the decoded books in
input order, at most one per input entry, each carrying a requested
market id (at most one per id when the requested ids are distinct). -/
theorem C8_get_quotes_skips_failures (now : Int)
    (fetches : List (String × BookFetch)) :
    ((∃ qs, get_quotes now fetches = .ok qs) ↔
      ∀ e ∈ fetches, e.2 ≠ BookFetch.decodeFail) ∧
    (∀ er, get_quotes now fetches = .error er →
      er = ClientError.Http ∧ ∃ e ∈ fetches, e.2 = BookFetch.decodeFail) ∧
    (∀ qs, get_quotes now fetches = .ok qs →
      qs = fetches.filterMap (quote_of_fetch now) ∧
      (qs.map (fun q => q.market_id)).Sublist (fetches.map (fun e => e.1)) ∧
      qs.length ≤ fetches.length ∧
      (∀ q ∈ qs, q.market_id ∈ fetches.map (fun e => e.1)) ∧
      ((fetches.map (fun e => e.1)).Nodup →
        ∀ id, (qs.map (fun q => q.market_id)).count id ≤ 1)) := by
  by_cases hdf : ∀ e ∈ fetches, e.2 ≠ BookFetch.decodeFail
  · refine ⟨⟨fun _ => hdf, fun _ => ⟨_, get_quotes_ok now fetches hdf⟩⟩, ?_, ?_⟩
    · intro er her
      rw [get_quotes_ok now fetches hdf] at her
      exact absurd her (by simp)
    · intro qs hqs
      rw [get_quotes_ok now fetches hdf] at hqs
      have hq : qs = fetches.filterMap (quote_of_fetch now) := by
        injection hqs with h; exact h.symm
      subst hq
      refine ⟨rfl, map_filterMap_quotes_sublist now fetches, ?_, ?_, ?_⟩
      · exact List.length_filterMap_le _ _
      · intro q hq
        exact (map_filterMap_quotes_sublist now fetches).subset
          (List.mem_map_of_mem (fun q => q.market_id) hq)
      · intro hnodup id
        calc ((fetches.filterMap (quote_of_fetch now)).map
                (fun q => q.market_id)).count id
            ≤ (fetches.map (fun e => e.1)).count id :=
              (map_filterMap_quotes_sublist now fetches).count_le id
          _ ≤ 1 := List.nodup_iff_count_le_one.mp hnodup id
  · push_neg at hdf
    obtain ⟨e, he, hef⟩ := hdf
    have herr := get_quotes_err now fetches ⟨e, he, hef⟩
    refine ⟨⟨?_, ?_⟩, ?_, ?_⟩
    · rintro ⟨qs, hqs⟩
      rw [herr] at hqs
      exact absurd hqs (by simp)
    · intro hall
      exact absurd hef (hall e he)
    · intro er her
      rw [herr] at her
      injection her with h
      exact ⟨h.symm, e, he, hef⟩
    · intro qs hqs
      rw [herr] at hqs
      exact absurd hqs (by simp)

/-- Witness for C8: on the fixture list the single returned quote carries
a requested id. -/
theorem C8_witness :
    (quote_from_book "b" 0 bookEx).market_id ∈ fetchesEx.map (fun e => e.1) :=
  ((C8_get_quotes_skips_failures 0 fetchesEx).2.2 [quote_from_book "b" 0 bookEx]
      rfl).2.2.2.1 (quote_from_book "b" 0 bookEx) (List.mem_singleton_self _)

/-- C9: the definition risk score the client derives from any rule text is
at most 0.75 = 0.30 + 0.30 + 0.15, so the min(1, sum) cap is never reached
(the score equals the plain weight sum) and the recommendation haircut
1 - definition_risk_score is at least 0.25 for client-produced rules. -/
theorem C9_risk_score_cap (rule_text : String) :
    calculate_risk_score (extract_risk_flags rule_text) ≤ 0.75 ∧
    0.25 ≤ 1 - calculate_risk_score (extract_risk_flags rule_text) ∧
    ((extract_risk_flags rule_text).map
      (fun f => severity_weight f.severity)).sum ≤ 0.75 ∧
    calculate_risk_score (extract_risk_flags rule_text) =
      ((extract_risk_flags rule_text).map
        (fun f => severity_weight f.severity)).sum := by
  unfold extract_risk_flags calculate_risk_score
  cases h1 : (str_contains (str_to_lower rule_text) "subjective"
      || str_contains (str_to_lower rule_text) "discretion") <;>
    cases h2 : (str_contains (str_to_lower rule_text) "unnamed"
      || str_contains (str_to_lower rule_text) "anonymous") <;>
      cases h3 : (str_contains (str_to_lower rule_text) "may"
        || str_contains (str_to_lower rule_text) "might"
        || str_contains (str_to_lower rule_text) "could") <;>
    simp_all [severity_weight]
  all_goals norm_num


end PmEndgame
